import Mathlib

/-!
Verification development for the Christmas-Tree interactive gesture experience.

The definitions below are shallow embeddings of the TypeScript source:
  - types.ts            : AppState, ParticleData, PhotoData, HandGesture
  - utils/math.ts       : generateTreePositions, generateScatterPositions,
                          createParticles (shape draw), createPhotoLayouts
  - App.tsx             : handleGestureChange, handlePhotoSelect, handlePhotoUpload
  - HandController.tsx  : detect (gesture classifier, smoothed and raw variants)
  - TreeScene.tsx       : group rotation update, particle lerp step, photo hit test
    (TreeScene exists in two variants in the sources: the standalone
    components/TreeScene.tsx and an embedded variant found alongside
    HandController; where they differ both are embedded, with ts/hc prefixes).

JavaScript numbers are idealised as real numbers.  Math.random() draws are
modelled as explicit input streams of values in [0,1).
-/

namespace ChristmasTree

open Real MeasureTheory Set List

/-! ## Data model (types.ts) -/

/-- Scene mode, from the AppState enum in types.ts. -/
inductive AppState where
  | ASSEMBLED
  | SCATTERED
  | INSPECTING
deriving DecidableEq, Repr

/-- Gesture classification, from the HandGesture type in types.ts. -/
inductive GestureType where
  | OPEN
  | CLOSED
  | PINCH
  | NONE
deriving DecidableEq, Repr

/-- A 3D vector (three.js Vector3): components (x, y, z). -/
abbrev V3 := ℝ × ℝ × ℝ

/-- The classified gesture value emitted by the hand controller
(HandGesture in types.ts): type, normalized 2D position, detection flag. -/
structure HandGesture where
  type : GestureType
  posX : ℝ
  posY : ℝ
  isDetected : Bool

/-! ## Scene state machine (App.tsx) -/

/-- Embedding of handleGestureChange from App.tsx (lines 89-109): while
INSPECTING only CLOSED/OPEN exit; otherwise CLOSED assembles, OPEN scatters,
and PINCH/NONE leave the mode alone. -/
def handleGestureChange (s : AppState) (g : GestureType) : AppState :=
  match s with
  | .INSPECTING =>
    match g with
    | .CLOSED => .ASSEMBLED
    | .OPEN => .SCATTERED
    | _ => .INSPECTING
  | _ =>
    match g with
    | .CLOSED => .ASSEMBLED
    | .OPEN => .SCATTERED
    | _ => s

/-- Embedding of handlePhotoSelect from App.tsx (lines 111-118): a non-null id
(selection event) forces INSPECTING, a null id (deselection) forces SCATTERED. -/
def handlePhotoSelect (_s : AppState) (id : Option String) : AppState :=
  match id with
  | some _ => .INSPECTING
  | none => .SCATTERED

/-- C1: in ASSEMBLED or SCATTERED, a CLOSED gesture yields ASSEMBLED (so it is
idempotent from ASSEMBLED), OPEN yields SCATTERED, and PINCH or NONE leave the
mode unchanged; a selection event in SCATTERED yields INSPECTING; in
INSPECTING, a deselection event yields SCATTERED and a CLOSED gesture yields
ASSEMBLED. -/
theorem claim1_state_machine (s : AppState) (id : String) :
    (s = .ASSEMBLED ∨ s = .SCATTERED →
      handleGestureChange s .CLOSED = .ASSEMBLED ∧
      handleGestureChange s .OPEN = .SCATTERED ∧
      handleGestureChange s .PINCH = s ∧
      handleGestureChange s .NONE = s) ∧
    handlePhotoSelect .SCATTERED (some id) = .INSPECTING ∧
    handlePhotoSelect .INSPECTING none = .SCATTERED ∧
    handleGestureChange .INSPECTING .CLOSED = .ASSEMBLED := by
  refine ⟨fun h => ?_, rfl, rfl, rfl⟩
  rcases h with h | h <;> subst h <;> exact ⟨rfl, rfl, rfl, rfl⟩

/-- Witness for C1 at the concrete state ASSEMBLED. -/
theorem claim1_state_machine_witness :
    handleGestureChange .ASSEMBLED .CLOSED = .ASSEMBLED ∧
    handleGestureChange .ASSEMBLED .PINCH = .ASSEMBLED :=
  ⟨(claim1_state_machine .ASSEMBLED "p").1 (Or.inl rfl) |>.1,
   (claim1_state_machine .ASSEMBLED "p").1 (Or.inl rfl) |>.2.2.1⟩

/-! ## Gesture classifier (HandController.tsx, both variants) -/

/-- JavaScript Math.hypot on two arguments. -/
noncomputable def hypot (a b : ℝ) : ℝ := Real.sqrt (a ^ 2 + b ^ 2)

/-- One frame's hand input: 21 normalized 2D landmarks (results.landmarks[0]). -/
abbrev Landmarks := Fin 21 → ℝ × ℝ

/-- Pinch distance (HandController.tsx lines 58-61): distance between the
thumb tip (landmark 4) and the index fingertip (landmark 8). -/
noncomputable def pinchDist (lm : Landmarks) : ℝ :=
  hypot ((lm 4).1 - (lm 8).1) ((lm 4).2 - (lm 8).2)

/-- Distance from landmark i to the wrist (landmark 0). -/
noncomputable def distToWrist (lm : Landmarks) (i : Fin 21) : ℝ :=
  hypot ((lm i).1 - (lm 0).1) ((lm i).2 - (lm 0).2)

/-- Mean fingertip-to-wrist distance (HandController.tsx lines 63-72):
tips are landmarks 8, 12, 16, 20 (index, middle, ring, pinky). -/
noncomputable def avgDistToWrist (lm : Landmarks) : ℝ :=
  (distToWrist lm 8 + distToWrist lm 12 + distToWrist lm 16 + distToWrist lm 20) / 4

/-- Threshold cascade of the classifier (HandController.tsx lines 83-93). -/
noncomputable def classifyType (lm : Landmarks) : GestureType :=
  if pinchDist lm < 0.05 then .PINCH
  else if avgDistToWrist lm < 0.25 then .CLOSED
  else .OPEN

/-- Raw cursor position (HandController.tsx lines 74-76): landmark 9 remapped
from [0,1] to [-1,1] per axis, with the vertical axis inverted. -/
noncomputable def rawPos (lm : Landmarks) : ℝ × ℝ :=
  (((lm 9).1 - 0.5) * 2, -((lm 9).2 - 0.5) * 2)

/-- Embedding of detect from components/HandController.tsx (lines 47-108),
as a function of the previous smoothed cursor and the optional landmark set:
no hand emits the fixed NONE value, otherwise the classified type together
with the exponentially smoothed cursor (lerp factor 0.2). -/
noncomputable def detect (prev : ℝ × ℝ) (input : Option Landmarks) : HandGesture :=
  match input with
  | none => ⟨.NONE, 0, 0, false⟩
  | some lm =>
    ⟨classifyType lm,
     prev.1 + ((rawPos lm).1 - prev.1) * 0.2,
     prev.2 + ((rawPos lm).2 - prev.2) * 0.2,
     true⟩

/-- Embedding of detect from the earlier HandController variant
(src/unnamed/part_001, lines 43-100): same classifier, raw (unsmoothed)
cursor position. -/
noncomputable def detectRaw (input : Option Landmarks) : HandGesture :=
  match input with
  | none => ⟨.NONE, 0, 0, false⟩
  | some lm => ⟨classifyType lm, (rawPos lm).1, (rawPos lm).2, true⟩

theorem detect_some_type (prev : ℝ × ℝ) (lm : Landmarks) :
    (detect prev (some lm)).type = classifyType lm := rfl

/-- C2: the classifier outputs PINCH whenever the thumb-index distance is
below 0.05 regardless of the other landmarks; otherwise CLOSED whenever the
mean fingertip-to-wrist distance is below 0.25 and OPEN otherwise; with no
hand the output type is NONE.  In particular pinch distance 0 gives PINCH and
pinch distance 0.30 with mean distance 0.30 gives OPEN. -/
theorem claim2_classifier (prev : ℝ × ℝ) (lm : Landmarks) :
    (pinchDist lm < 0.05 → (detect prev (some lm)).type = .PINCH) ∧
    (0.05 ≤ pinchDist lm → avgDistToWrist lm < 0.25 →
      (detect prev (some lm)).type = .CLOSED) ∧
    (0.05 ≤ pinchDist lm → 0.25 ≤ avgDistToWrist lm →
      (detect prev (some lm)).type = .OPEN) ∧
    (pinchDist lm = 0 → (detect prev (some lm)).type = .PINCH) ∧
    (pinchDist lm = 0.3 → avgDistToWrist lm = 0.3 →
      (detect prev (some lm)).type = .OPEN) ∧
    (detect prev none).type = .NONE := by
  rw [detect_some_type]
  unfold classifyType
  refine ⟨fun h => if_pos h, fun h1 h2 => ?_, fun h1 h2 => ?_, fun h => ?_,
    fun h1 h2 => ?_, rfl⟩
  · rw [if_neg (not_lt.mpr h1), if_pos h2]
  · rw [if_neg (not_lt.mpr h1), if_neg (not_lt.mpr h2)]
  · rw [if_pos (by rw [h]; norm_num)]
  · rw [if_neg (by rw [h1]; norm_num), if_neg (by rw [h2]; norm_num)]

/-- Concrete landmark set: thumb tip 0.3 above the index tip, four fingertips
at axis-aligned distance 0.3 from the wrist at the origin. -/
noncomputable def lmSpread : Landmarks := fun i =>
  if i.val = 4 then (0.3, 0.3)
  else if i.val = 8 then (0.3, 0)
  else if i.val = 12 then (0, 0.3)
  else if i.val = 16 then (0, -0.3)
  else if i.val = 20 then (-0.3, 0)
  else (0, 0)

theorem sqrt_nine : Real.sqrt 9 = 3 := by
  rw [show (9 : ℝ) = 3 ^ 2 by norm_num, Real.sqrt_sq (by norm_num)]

theorem sqrt_hundred : Real.sqrt 100 = 10 := by
  rw [show (100 : ℝ) = 10 ^ 2 by norm_num, Real.sqrt_sq (by norm_num)]

theorem sqrt_nine_hundredths : Real.sqrt (9 / 100) = 3 / 10 := by
  rw [show (9 / 100 : ℝ) = (3 / 10) ^ 2 by norm_num, Real.sqrt_sq (by norm_num)]

theorem finVal_lmIdx : ((0 : Fin 21) : ℕ) = 0 ∧ ((4 : Fin 21) : ℕ) = 4 ∧
    ((8 : Fin 21) : ℕ) = 8 ∧ ((12 : Fin 21) : ℕ) = 12 ∧
    ((16 : Fin 21) : ℕ) = 16 ∧ ((20 : Fin 21) : ℕ) = 20 :=
  ⟨rfl, rfl, rfl, rfl, rfl, rfl⟩

theorem pinchDist_lmSpread : pinchDist lmSpread = 0.3 := by
  unfold pinchDist lmSpread hypot
  rw [finVal_lmIdx.2.1, finVal_lmIdx.2.2.1]
  norm_num [sqrt_nine_hundredths, sqrt_nine, sqrt_hundred]

theorem avgDistToWrist_lmSpread : avgDistToWrist lmSpread = 0.3 := by
  unfold avgDistToWrist distToWrist lmSpread hypot
  rw [finVal_lmIdx.1, finVal_lmIdx.2.2.1, finVal_lmIdx.2.2.2.1,
    finVal_lmIdx.2.2.2.2.1, finVal_lmIdx.2.2.2.2.2]
  norm_num [sqrt_nine_hundredths, sqrt_nine, sqrt_hundred]

/-- Witness for C2: all landmarks at the origin give PINCH (pinch distance 0),
the spread hand gives OPEN (pinch distance 0.3, mean distance 0.3), and no
detected hand gives NONE. -/
theorem claim2_classifier_witness :
    (detect (0, 0) (some (fun _ => (0, 0)))).type = .PINCH ∧
    (detect (0, 0) (some lmSpread)).type = .OPEN ∧
    (detect (0, 0) none).type = .NONE := by
  refine ⟨(claim2_classifier (0, 0) _).2.2.2.1 ?_,
    (claim2_classifier (0, 0) lmSpread).2.2.2.2.1 pinchDist_lmSpread
      avgDistToWrist_lmSpread,
    (claim2_classifier (0, 0) (fun _ => (0, 0))).2.2.2.2.2⟩
  unfold pinchDist hypot
  norm_num

/-- C10 (implicit): the emitted gesture has type NONE exactly when no hand is
detected; with a hand detected the type is one of PINCH, CLOSED, OPEN; with no
hand the emitted value is exactly {type NONE, position (0,0), detected false}.
This holds for both controller variants. -/
theorem claim10_none_iff_undetected (prev : ℝ × ℝ) (input : Option Landmarks) :
    ((detect prev input).type = .NONE ↔ (detect prev input).isDetected = false) ∧
    ((detect prev input).isDetected = true →
      (detect prev input).type = .PINCH ∨ (detect prev input).type = .CLOSED ∨
      (detect prev input).type = .OPEN) ∧
    (detect prev none = ⟨.NONE, 0, 0, false⟩) ∧
    ((detectRaw input).type = .NONE ↔ (detectRaw input).isDetected = false) ∧
    ((detectRaw input).isDetected = true →
      (detectRaw input).type = .PINCH ∨ (detectRaw input).type = .CLOSED ∨
      (detectRaw input).type = .OPEN) ∧
    (detectRaw none = ⟨.NONE, 0, 0, false⟩) := by
  have hcls : ∀ lm : Landmarks, classifyType lm = .PINCH ∨
      classifyType lm = .CLOSED ∨ classifyType lm = .OPEN := by
    intro lm
    unfold classifyType
    split_ifs with h1 h2
    · exact Or.inl rfl
    · exact Or.inr (Or.inl rfl)
    · exact Or.inr (Or.inr rfl)
  have hne : ∀ lm : Landmarks, classifyType lm ≠ .NONE := by
    intro lm
    rcases hcls lm with h | h | h <;> rw [h] <;> intro hc <;> exact absurd hc (by simp)
  cases input with
  | none => exact ⟨by simp [detect], by simp [detect], rfl, by simp [detectRaw],
      by simp [detectRaw], rfl⟩
  | some lm =>
    refine ⟨?_, fun _ => hcls lm, rfl, ?_, fun _ => hcls lm, rfl⟩
    · simp only [detect]
      exact ⟨fun h => absurd h (hne lm), fun h => by simp at h⟩
    · simp only [detectRaw]
      exact ⟨fun h => absurd h (hne lm), fun h => by simp at h⟩

/-- Witness for C10 at a detected all-origin hand and at an absent hand. -/
theorem claim10_none_iff_undetected_witness :
    ((detect (0, 0) (some (fun _ => (0, 0)))).type = .PINCH ∨
      (detect (0, 0) (some (fun _ => (0, 0)))).type = .CLOSED ∨
      (detect (0, 0) (some (fun _ => (0, 0)))).type = .OPEN) ∧
    detect (0, 0) none = ⟨.NONE, 0, 0, false⟩ :=
  ⟨(claim10_none_iff_undetected (0, 0) (some (fun _ => (0, 0)))).2.1 rfl,
   (claim10_none_iff_undetected (0, 0) none).2.2.1⟩

/-! ## Layout generator (utils/math.ts, src/unnamed/part_000) -/

/-- Loop body of generateTreePositions (math.ts lines 16-24) at index i:
t = i/count, angle = t * PI * 20, y = height * (0.5 - t), r = radius * t,
position (r * cos angle, y, r * sin angle). -/
noncomputable def treePosition (count : ℕ) (radius height : ℝ) (i : ℕ) : V3 :=
  (radius * ((i : ℝ) / count) * Real.cos (((i : ℝ) / count) * π * 20),
   height * (0.5 - (i : ℝ) / count),
   radius * ((i : ℝ) / count) * Real.sin (((i : ℝ) / count) * π * 20))

/-- Embedding of generateTreePositions from math.ts (lines 14-27). -/
noncomputable def generateTreePositions (count : ℕ) (radius height : ℝ) : List V3 :=
  (List.range count).map (treePosition count radius height)

/-- Loop body of generateScatterPositions (math.ts lines 31-36) at index i,
with u the stream of Math.random() results (three draws per index, in call
order). -/
noncomputable def scatterPosition (u : ℕ → ℝ) (spread : ℝ) (i : ℕ) : V3 :=
  ((u (3 * i) - 0.5) * spread, (u (3 * i + 1) - 0.5) * spread,
   (u (3 * i + 2) - 0.5) * spread)

/-- Embedding of generateScatterPositions from math.ts (lines 29-38). -/
noncomputable def generateScatterPositions (u : ℕ → ℝ) (count : ℕ) (spread : ℝ) :
    List V3 :=
  (List.range count).map (scatterPosition u spread)

/-- Distance of a point from the vertical (y) axis. -/
noncomputable def radialDist (p : V3) : ℝ := Real.sqrt (p.1 ^ 2 + p.2.2 ^ 2)

theorem generateTreePositions_length (count : ℕ) (radius height : ℝ) :
    (generateTreePositions count radius height).length = count := by
  unfold generateTreePositions
  rw [List.length_map, List.length_range]

theorem generateTreePositions_getElem (count : ℕ) (radius height : ℝ) (i : ℕ)
    (hi : i < count) :
    (generateTreePositions count radius height)[i]? =
      some (treePosition count radius height i) := by
  unfold generateTreePositions
  simp [List.getElem?_map, List.getElem?_range hi]

theorem radialDist_treePosition (count : ℕ) (radius height : ℝ) (i : ℕ)
    (hr : 0 ≤ radius) :
    radialDist (treePosition count radius height i) = radius * ((i : ℝ) / count) := by
  unfold radialDist treePosition
  have hsq : (radius * ((i : ℝ) / count) * Real.cos (((i : ℝ) / count) * π * 20)) ^ 2 +
      (radius * ((i : ℝ) / count) * Real.sin (((i : ℝ) / count) * π * 20)) ^ 2 =
      (radius * ((i : ℝ) / count)) ^ 2 := by
    have hpy : Real.sin (((i : ℝ) / count) * π * 20) ^ 2 +
        Real.cos (((i : ℝ) / count) * π * 20) ^ 2 = 1 :=
      Real.sin_sq_add_cos_sq _
    nlinarith [hpy]
  rw [hsq, Real.sqrt_sq (by positivity)]

theorem treePosition_y_lt (count : ℕ) (radius height : ℝ) (hh : 0 < height)
    (hc : 0 < count) (i j : ℕ) (hij : i < j) :
    (treePosition count radius height j).2.1 <
      (treePosition count radius height i).2.1 := by
  unfold treePosition
  have hcount : (0 : ℝ) < count := Nat.cast_pos.mpr hc
  have hlt : (i : ℝ) / count < (j : ℝ) / count :=
    (div_lt_div_iff_of_pos_right hcount).mpr (Nat.cast_lt.mpr hij)
  nlinarith [hlt, hh]

theorem treePosition_radial_le (count : ℕ) (radius height : ℝ) (hr : 0 ≤ radius)
    (hc : 0 < count) (i j : ℕ) (hij : i ≤ j) :
    radialDist (treePosition count radius height i) ≤
      radialDist (treePosition count radius height j) := by
  rw [radialDist_treePosition count radius height i hr,
    radialDist_treePosition count radius height j hr]
  have hcount : (0 : ℝ) < count := Nat.cast_pos.mpr hc
  have hle : (i : ℝ) / count ≤ (j : ℝ) / count :=
    (div_le_div_iff_of_pos_right hcount).mpr (Nat.cast_le.mpr hij)
  exact mul_le_mul_of_nonneg_left hle hr

/-- In generation order the vertical coordinate strictly decreases and the
radial distance from the axis is non-decreasing, for nonnegative radius and
positive height. -/
theorem generateTreePositions_pairwise (count : ℕ) (radius height : ℝ)
    (hr : 0 ≤ radius) (hh : 0 < height) (hc : 0 < count) :
    (generateTreePositions count radius height).Pairwise
      (fun p q => q.2.1 < p.2.1 ∧ radialDist p ≤ radialDist q) := by
  unfold generateTreePositions
  rw [List.pairwise_map]
  exact (List.pairwise_lt_range count).imp fun hab =>
    ⟨treePosition_y_lt count radius height hh hc _ _ hab,
     treePosition_radial_le count radius height hr hc _ _ (Nat.le_of_lt hab)⟩

theorem treePosition_zero (radius height : ℝ) (count : ℕ) :
    treePosition count radius height 0 = (0, height * 0.5, 0) := by
  unfold treePosition
  norm_num

/-- C3: for every count N > 0, at the radius/height arguments the source
passes (4 and 10 for particles, 5.5 and 9 for photos) the tree layout has
exactly N positions, strictly decreasing vertical coordinate and
non-decreasing radial distance in generation order; with count 4, radius 4,
height 10 the position at index 0 is (0, 5, 0) and the position at index 3
has vertical coordinate -2.5. -/
theorem claim3_tree_layout (N : ℕ) (hN : 0 < N) :
    ((generateTreePositions N 4 10).length = N ∧
      (generateTreePositions N 4 10).Pairwise
        (fun p q => q.2.1 < p.2.1 ∧ radialDist p ≤ radialDist q)) ∧
    ((generateTreePositions N 5.5 9).length = N ∧
      (generateTreePositions N 5.5 9).Pairwise
        (fun p q => q.2.1 < p.2.1 ∧ radialDist p ≤ radialDist q)) ∧
    (generateTreePositions 4 4 10)[0]? = some (0, 5, 0) ∧
    ((generateTreePositions 4 4 10)[3]?.map fun p => p.2.1) = some ((-2.5 : ℝ)) := by
  refine ⟨⟨generateTreePositions_length N 4 10,
      generateTreePositions_pairwise N 4 10 (by norm_num) (by norm_num) hN⟩,
    ⟨generateTreePositions_length N 5.5 9,
      generateTreePositions_pairwise N 5.5 9 (by norm_num) (by norm_num) hN⟩,
    ?_, ?_⟩
  · rw [generateTreePositions_getElem 4 4 10 0 (by norm_num), treePosition_zero]
    norm_num
  · rw [generateTreePositions_getElem 4 4 10 3 (by norm_num)]
    unfold treePosition
    simp only [Option.map_some']
    norm_num

/-- Witness for C3 at the concrete count 4. -/
theorem claim3_tree_layout_witness :
    (generateTreePositions 4 4 10).length = 4 ∧
    (generateTreePositions 4 4 10)[0]? = some (0, 5, 0) :=
  ⟨(claim3_tree_layout 4 (by norm_num)).1.1,
   (claim3_tree_layout 4 (by norm_num)).2.2.1⟩

/-- Position formula asserted by claim C4 and spec section 4.1: identical to
the code formula except that the spiral angle is t times 20 full turns,
i.e. t * 40 * pi radians (written t * (2 * pi * 20) below). -/
noncomputable def specTreePosition (count : ℕ) (radius height : ℝ) (i : ℕ) : V3 :=
  (radius * ((i : ℝ) / count) * Real.cos (((i : ℝ) / count) * (2 * π * 20)),
   height * (0.5 - (i : ℝ) / count),
   radius * ((i : ℝ) / count) * Real.sin (((i : ℝ) / count) * (2 * π * 20)))

theorem cos_five_pi : Real.cos (5 * π) = -1 := by
  have h := Real.cos_nat_mul_two_pi_add_pi 2
  push_cast at h
  rw [show (5 : ℝ) * π = 2 * (2 * π) + π by ring]
  exact h

theorem cos_ten_pi : Real.cos (10 * π) = 1 := by
  have h := Real.cos_nat_mul_two_pi 5
  push_cast at h
  rw [show (10 : ℝ) * π = 5 * (2 * π) by ring]
  exact h

/-- Counterexample to C4: at count 4, radius 4, height 10, index 1, the
generated position (angle 5 * pi, x = -1) differs from the claimed formula
(angle 10 * pi, x = 1). -/
theorem claim4_counterexample :
    (generateTreePositions 4 4 10)[1]? ≠ some (specTreePosition 4 4 10 1) := by
  rw [generateTreePositions_getElem 4 4 10 1 (by norm_num)]
  intro h
  have hx := congrArg (fun p : V3 => p.1) (Option.some_inj.mp h)
  simp only [treePosition, specTreePosition] at hx
  rw [show (((1 : ℕ) : ℝ) / ((4 : ℕ) : ℝ)) * π * 20 = 5 * π by push_cast; ring,
    show (((1 : ℕ) : ℝ) / ((4 : ℕ) : ℝ)) * (2 * π * 20) = 10 * π by push_cast; ring,
    cos_five_pi, cos_ten_pi] at hx
  norm_num at hx

/-- C4 (amended): for every count N and index i < N the generated position is
(r * cos angle, height * (0.5 - t), r * sin angle) with t = i / N,
r = radius * t and angle = t * pi * 20, i.e. t times 10 full turns (the
claim said 20 full turns, t * 40 * pi radians). -/
theorem claim4_spiral_formula (N : ℕ) (radius height : ℝ) (i : ℕ)
    (hi : i < N) :
    (generateTreePositions N radius height)[i]? =
      some (radius * ((i : ℝ) / N) * Real.cos (((i : ℝ) / N) * π * 20),
            height * (0.5 - (i : ℝ) / N),
            radius * ((i : ℝ) / N) * Real.sin (((i : ℝ) / N) * π * 20)) := by
  rw [generateTreePositions_getElem N radius height i hi]
  rfl

/-- Witness for the amended C4 at count 4, index 1. -/
theorem claim4_spiral_formula_witness :
    (generateTreePositions 4 4 10)[1]? =
      some (4 * (((1 : ℕ) : ℝ) / (4 : ℕ)) *
              Real.cos ((((1 : ℕ) : ℝ) / (4 : ℕ)) * π * 20),
            10 * (0.5 - ((1 : ℕ) : ℝ) / (4 : ℕ)),
            4 * (((1 : ℕ) : ℝ) / (4 : ℕ)) *
              Real.sin ((((1 : ℕ) : ℝ) / (4 : ℕ)) * π * 20)) :=
  claim4_spiral_formula 4 4 10 1 (by norm_num)

/-! ## Group rotation update (TreeScene useFrame, both variants) -/

/-- three.js MathUtils.lerp. -/
noncomputable def lerp (a b t : ℝ) : ℝ := a + (b - a) * t

/-- The formation group's Euler rotation state (only x and y are driven). -/
structure GroupRot where
  rotX : ℝ
  rotY : ℝ

/-- Embedding of the group rotation step of components/TreeScene.tsx
(lines 61-82): the base spin on y runs unconditionally every frame; while
SCATTERED with a hand detected both axes are lerped toward the cursor-derived
targets (dampened while a photo is hovered); otherwise x relaxes to 0. -/
noncomputable def tsRotationUpdate (mode : AppState) (detected hovered : Bool)
    (gx gy : ℝ) (rot : GroupRot) (delta : ℝ) : GroupRot :=
  let y1 := rot.rotY + 0.05 * delta
  if mode = .SCATTERED ∧ detected = true then
    let damp : ℝ := if hovered then 0.05 else 1.0
    ⟨lerp rot.rotX (gy * 0.5) (0.05 * damp), lerp y1 (gx * 2) (0.05 * damp)⟩
  else
    ⟨lerp rot.rotX 0 0.05, y1⟩

/-- Embedding of the group rotation step of the TreeScene variant embedded in
components/HandController.tsx (lines 189-212): identical except that the base
spin and the upright relaxation are both skipped while INSPECTING. -/
noncomputable def hcRotationUpdate (mode : AppState) (detected hovered : Bool)
    (gx gy : ℝ) (rot : GroupRot) (delta : ℝ) : GroupRot :=
  let y1 := if mode ≠ .INSPECTING then rot.rotY + 0.05 * delta else rot.rotY
  if mode = .SCATTERED ∧ detected = true then
    let damp : ℝ := if hovered then 0.05 else 1.0
    ⟨lerp rot.rotX (gy * 0.5) (0.05 * damp), lerp y1 (gx * 2) (0.05 * damp)⟩
  else if mode ≠ .INSPECTING then
    ⟨lerp rot.rotX 0 0.05, y1⟩
  else
    ⟨rot.rotX, y1⟩

/-- Counterexample to C5: in components/TreeScene.tsx the base spin is not
frozen while INSPECTING; with yaw 0 and delta 1 the update yields yaw 0.05,
not 0. -/
theorem claim5_counterexample :
    (tsRotationUpdate .INSPECTING false false 0 0 ⟨0, 0⟩ 1).rotY = 0.05 ∧
    (0.05 : ℝ) ≠ 0 := by
  constructor
  · simp [tsRotationUpdate, lerp]
  · norm_num

/-- C5 (amended): the yaw freeze during INSPECTING holds only in the TreeScene
variant embedded in HandController.tsx; in components/TreeScene.tsx the base
spin advances yaw by 0.05 * delta in every mode, including INSPECTING.  In
both variants, while ASSEMBLED or SCATTERED with no hand-driven override
active (not both SCATTERED and detected), the yaw advances by exactly
0.05 * delta. -/
theorem claim5_base_spin (m : AppState) (det hov : Bool) (gx gy : ℝ)
    (r : GroupRot) (δ : ℝ) :
    (m = .INSPECTING → (hcRotationUpdate m det hov gx gy r δ).rotY = r.rotY) ∧
    (m = .INSPECTING →
      (tsRotationUpdate m det hov gx gy r δ).rotY = r.rotY + 0.05 * δ) ∧
    (¬(m = .SCATTERED ∧ det = true) → m ≠ .INSPECTING →
      (tsRotationUpdate m det hov gx gy r δ).rotY = r.rotY + 0.05 * δ ∧
      (hcRotationUpdate m det hov gx gy r δ).rotY = r.rotY + 0.05 * δ) := by
  refine ⟨fun h => ?_, fun h => ?_, fun h1 h2 => ⟨?_, ?_⟩⟩
  · subst h
    simp [hcRotationUpdate]
  · subst h
    simp [tsRotationUpdate]
  · simp [tsRotationUpdate, if_neg h1]
  · simp [hcRotationUpdate, if_neg h1, if_pos h2]

/-- Witness for the amended C5: ASSEMBLED with no hand advances yaw by
0.05 * delta in TreeScene.tsx, and INSPECTING leaves yaw untouched in the
embedded variant. -/
theorem claim5_base_spin_witness :
    (tsRotationUpdate .ASSEMBLED false false 0 0 ⟨0, 0⟩ 1).rotY = 0 + 0.05 * 1 ∧
    (hcRotationUpdate .INSPECTING false false 0 0 ⟨1, 2⟩ 1).rotY = 2 :=
  ⟨((claim5_base_spin .ASSEMBLED false false 0 0 ⟨0, 0⟩ 1).2.2 (by simp)
      (by simp)).1,
   (claim5_base_spin .INSPECTING false false 0 0 ⟨1, 2⟩ 1).1 rfl⟩

/-! ## Photo hit test (PhotoFrame useFrame, both variants)

The camera is fixed at (0, 0, 20) with a 45 degree vertical fov (App.tsx
line 131) and default orientation, so three.js Vector3.project maps a world
point (x, y, z) to normalized device coordinates
((f / a) * x / (20 - z), f * y / (20 - z)) where f is the cotangent of half
the fov and a the viewport aspect ratio.  The formation group's transform is
the three.js Euler XYZ rotation with z = 0, i.e. Rx(pitch) * Ry(yaw). -/

/-- Rotation about the vertical (y) axis, as in three.js makeRotationY. -/
noncomputable def rotY3 (t : ℝ) (p : V3) : V3 :=
  (Real.cos t * p.1 + Real.sin t * p.2.2, p.2.1,
   -Real.sin t * p.1 + Real.cos t * p.2.2)

/-- Rotation about the x axis, as in three.js makeRotationX. -/
noncomputable def rotX3 (t : ℝ) (p : V3) : V3 :=
  (p.1, Real.cos t * p.2.1 - Real.sin t * p.2.2,
   Real.sin t * p.2.1 + Real.cos t * p.2.2)

/-- World position of a child of the formation group: the group's Euler XYZ
rotation (z component zero) applied to the local position. -/
noncomputable def groupWorld (pitch yaw : ℝ) (p : V3) : V3 :=
  rotX3 pitch (rotY3 yaw p)

/-- Projection to normalized device coordinates for the fixed scene camera:
f is the cotangent of half the vertical fov, a the aspect ratio. -/
noncomputable def ndcProject (f a : ℝ) (p : V3) : ℝ × ℝ :=
  ((f / a) * p.1 / (20 - p.2.2), f * p.2.1 / (20 - p.2.2))

/-- Planar cursor distance of the hit test (dx = pos.x - (-gesture.x),
dy = pos.y - gesture.y, dist = hypot dx dy). -/
noncomputable def hitDist (f a gx gy : ℝ) (p : V3) : ℝ :=
  hypot ((ndcProject f a p).1 - (-gx)) ((ndcProject f a p).2 - gy)

/-- Hit test of components/TreeScene.tsx (lines 213-247): the photo's LOCAL
position (meshRef.current.position) is projected; the group transform is
never applied.  The pitch and yaw arguments are unused for that reason. -/
noncomputable def tsIsOver (f a gx gy : ℝ) (_pitch _yaw : ℝ) (localPos : V3) :
    Prop :=
  hitDist f a gx gy localPos < 0.2

/-- Hit test of the TreeScene variant embedded in HandController.tsx
(lines 366-402): getWorldPosition is applied first, so the projected point is
the photo's world position. -/
noncomputable def hcIsOver (f a gx gy : ℝ) (pitch yaw : ℝ) (localPos : V3) :
    Prop :=
  hitDist f a gx gy (groupWorld pitch yaw localPos) < 0.2

/-- Cotangent of half the 45 degree fov: 1 / tan(22.5 degrees) = sqrt 2 + 1. -/
noncomputable def fovCot : ℝ := Real.sqrt 2 + 1

theorem hypot_zero_zero : hypot 0 0 = 0 := by
  unfold hypot
  norm_num

theorem hypot_abs_left (x : ℝ) : hypot x 0 = |x| := by
  unfold hypot
  rw [show x ^ 2 + 0 ^ 2 = x ^ 2 by ring, Real.sqrt_sq_eq_abs]

/-- Counterexample to C6: with the formation rotated by yaw pi, a photo at
local position (1, 0, 0) has world position (-1, 0, 0); the TreeScene.tsx hit
test (which projects the local position) classifies it over for the cursor
aimed at the local projection, while the distance computed from the projected
world position, as the claim prescribes, is (sqrt 2 + 1) / 10 which is at
least 0.2, hence not over. -/
theorem claim6_counterexample :
    tsIsOver fovCot 1 (-(fovCot / 20)) 0 0 π (1, 0, 0) ∧
    ¬ hcIsOver fovCot 1 (-(fovCot / 20)) 0 0 π (1, 0, 0) := by
  have hf : (0 : ℝ) < fovCot := by
    unfold fovCot
    positivity
  have hf2 : (2 : ℝ) ≤ fovCot := by
    unfold fovCot
    have h1 : (1 : ℝ) ≤ Real.sqrt 2 := by
      rw [show (1 : ℝ) = Real.sqrt 1 by rw [Real.sqrt_one]]
      exact Real.sqrt_le_sqrt (by norm_num)
    linarith
  constructor
  · unfold tsIsOver hitDist ndcProject
    simp only
    rw [show fovCot / 1 * 1 / (20 - 0) - -(-(fovCot / 20)) = 0 by ring,
      show fovCot * 0 / (20 - 0) - 0 = 0 by ring, hypot_zero_zero]
    norm_num
  · unfold hcIsOver groupWorld rotY3 rotX3 hitDist ndcProject
    simp only [Real.cos_pi, Real.sin_pi, Real.cos_zero, Real.sin_zero]
    rw [show (fovCot / 1 * (-1 * 1 + 0 * 0) / (20 - (0 * 0 + 1 * (-0 * 1 + -1 * 0))) -
        (-(-(fovCot / 20)))) = -(fovCot / 10) by ring]
    rw [show fovCot * (1 * 0 - 0 * (-0 * 1 + -1 * 0)) /
        (20 - (0 * 0 + 1 * (-0 * 1 + -1 * 0))) - 0 = 0 by ring]
    rw [hypot_abs_left, abs_neg, abs_of_pos (by positivity)]
    intro hlt
    nlinarith

/-- C6 (amended): only the TreeScene variant embedded in HandController.tsx
projects the photo's world position; components/TreeScene.tsx projects the
photo's local position inside the (possibly rotated) formation group.  In
both variants the photo is over exactly when the planar distance between the
projected point and the X-negated cursor is strictly below 0.2, so projected
distance 0 is always over and distance exactly 0.2 is not over. -/
theorem claim6_hit_test (f a gx gy pitch yaw : ℝ) (p : V3) :
    (tsIsOver f a gx gy pitch yaw p ↔ hitDist f a gx gy p < 0.2) ∧
    (hcIsOver f a gx gy pitch yaw p ↔
      hitDist f a gx gy (groupWorld pitch yaw p) < 0.2) ∧
    (hitDist f a gx gy p = 0 → tsIsOver f a gx gy pitch yaw p) ∧
    (hitDist f a gx gy p = 0.2 → ¬ tsIsOver f a gx gy pitch yaw p) ∧
    (hitDist f a gx gy (groupWorld pitch yaw p) = 0 →
      hcIsOver f a gx gy pitch yaw p) ∧
    (hitDist f a gx gy (groupWorld pitch yaw p) = 0.2 →
      ¬ hcIsOver f a gx gy pitch yaw p) := by
  refine ⟨Iff.rfl, Iff.rfl, fun h => ?_, fun h => ?_, fun h => ?_, fun h => ?_⟩
  · unfold tsIsOver
    rw [h]
    norm_num
  · unfold tsIsOver
    rw [h]
    exact lt_irrefl _
  · unfold hcIsOver
    rw [h]
    norm_num
  · unfold hcIsOver
    rw [h]
    exact lt_irrefl _

theorem hitDist_origin : hitDist 1 1 0 0 (0, 0, 0) = 0 := by
  unfold hitDist ndcProject
  simp only
  rw [show (1 : ℝ) / 1 * 0 / (20 - 0) - -0 = 0 by ring,
    show (1 : ℝ) * 0 / (20 - 0) - 0 = 0 by ring, hypot_zero_zero]

/-- Witness for the amended C6: a photo at the origin with a centered cursor
is over in both variants (projected distance 0). -/
theorem claim6_hit_test_witness :
    tsIsOver 1 1 0 0 0 0 (0, 0, 0) ∧ hcIsOver 1 1 0 0 0 0 (0, 0, 0) := by
  have hworld : hitDist 1 1 0 0 (groupWorld 0 0 (0, 0, 0)) = 0 := by
    unfold groupWorld rotY3 rotX3
    simp only [Real.cos_zero, Real.sin_zero]
    rw [show ((1 : ℝ) * 0 + 0 * 0, 1 * 0 - 0 * (-0 * 0 + 1 * 0),
      0 * 0 + 1 * (-0 * 0 + 1 * 0)) = ((0 : ℝ), (0 : ℝ), (0 : ℝ)) by norm_num]
    exact hitDist_origin
  exact ⟨(claim6_hit_test 1 1 0 0 0 0 (0, 0, 0)).2.2.1 hitDist_origin,
    (claim6_hit_test 1 1 0 0 0 0 (0, 0, 0)).2.2.2.2.1 hworld⟩

/-! ## Photo upload (App.tsx handlePhotoUpload, math.ts createPhotoLayouts) -/

/-- Prefix test on character lists (pattern first). -/
def leadsWith : List Char → List Char → Bool
  | [], _ => true
  | _ :: _, [] => false
  | a :: as, b :: bs => a == b && leadsWith as bs

/-- Occurrence test of a pattern inside a character list. -/
def hasSubList (pat : List Char) : List Char → Bool
  | [] => leadsWith pat []
  | c :: rest => leadsWith pat (c :: rest) || hasSubList pat rest

/-- JavaScript String.prototype.includes. -/
def strIncludes (s pat : String) : Bool := hasSubList pat.toList s.toList

/-- PhotoData from types.ts. -/
structure PhotoData where
  id : String
  url : String
  position : V3
  targetTree : V3
  targetScattered : V3
  rotation : V3

/-- Embedding of createPhotoLayouts from math.ts (lines 60-74): photos spiral
with radius 5.5 and height 9, start at (0, -10, 0), scatter with spread 12,
and get a random y rotation.  The stream u supplies the Math.random() results
in call order: three per index for the scatter layout, then one per photo for
the rotation. -/
noncomputable def createPhotoLayouts (u : ℕ → ℝ) (photos : List String) :
    List PhotoData :=
  let count := photos.length
  photos.mapIdx fun i url =>
    { id := "photo-" ++ toString i
      url := url
      position := (0, -10, 0)
      targetTree := treePosition count 5.5 9 i
      targetScattered := scatterPosition u 12 i
      rotation := (0, u (3 * count + i) * π, 0) }

/-- The DEFAULT_PHOTOS placeholder list from App.tsx (lines 20-29). -/
def defaultPhotos : List String :=
  ["https://picsum.photos/400/400?random=1",
   "https://picsum.photos/400/400?random=2",
   "https://picsum.photos/400/400?random=3",
   "https://picsum.photos/400/400?random=4",
   "https://picsum.photos/400/400?random=5",
   "https://picsum.photos/400/400?random=6",
   "https://picsum.photos/400/400?random=7",
   "https://picsum.photos/400/400?random=8"]

/-- The replacement condition actually tested by handlePhotoUpload (App.tsx
line 53): the list is non-empty and the FIRST photo's url contains
picsum.photos. -/
def isDefaultList (prev : List PhotoData) : Bool :=
  match prev with
  | [] => false
  | p :: _ => strIncludes p.url "picsum.photos"

/-- The replacement condition as worded by claim C7 and spec section 6: the
current photo list is entirely default/placeholder content. -/
def specEntirelyDefault (prev : List PhotoData) : Bool :=
  !prev.isEmpty && prev.all fun p => strIncludes p.url "picsum.photos"

/-- Upload result as worded by the claim: replace exactly when the current
list is entirely default, otherwise append the new sources in order. -/
def specUpdatedUrls (prev : List PhotoData) (newUrls : List String) :
    List String :=
  if specEntirelyDefault prev then newUrls
  else prev.map (fun p => p.url) ++ newUrls

/-- Embedding of handlePhotoUpload from App.tsx (lines 47-72), taking the
uploaded object urls as input: with a non-empty upload, replace when
isDefaultList holds, otherwise append; regenerate the layouts for the whole
resulting collection and force SCATTERED. -/
noncomputable def handlePhotoUpload (u : ℕ → ℝ) (newUrls : List String)
    (prev : List PhotoData) (mode : AppState) : List PhotoData × AppState :=
  if newUrls.isEmpty then (prev, mode)
  else
    (createPhotoLayouts u
      (if isDefaultList prev then newUrls
       else prev.map (fun p => p.url) ++ newUrls),
     .SCATTERED)

theorem createPhotoLayouts_urls (u : ℕ → ℝ) (photos : List String) :
    (createPhotoLayouts u photos).map (fun p => p.url) = photos := by
  unfold createPhotoLayouts
  simp only
  generalize photos.length = n
  have h : ∀ (l : List String) (f : ℕ → String → PhotoData),
      (∀ i s, (f i s).url = s) → (l.mapIdx f).map (fun p => p.url) = l := by
    intro l
    induction l with
    | nil => intro f _; rfl
    | cons a as ih =>
      intro f hf
      rw [List.mapIdx_cons, List.map_cons, hf, ih _ fun i s => hf (i + 1) s]
  exact h photos _ fun i s => rfl

theorem createPhotoLayouts_length (u : ℕ → ℝ) (photos : List String) :
    (createPhotoLayouts u photos).length = photos.length := by
  have h := congrArg List.length (createPhotoLayouts_urls u photos)
  rw [List.length_map] at h
  exact h

/-- Counterexample to C7: with a mixed current list whose first photo is a
placeholder but whose second is a user photo (so the list is NOT entirely
default), the code still replaces, while the claim requires appending. -/
theorem claim7_counterexample :
    ((handlePhotoUpload (fun _ => 0) ["blob:new-upload"]
        [⟨"photo-0", "https://picsum.photos/400/400?random=1",
          (0, 0, 0), (0, 0, 0), (0, 0, 0), (0, 0, 0)⟩,
         ⟨"photo-1", "blob:user-photo",
          (0, 0, 0), (0, 0, 0), (0, 0, 0), (0, 0, 0)⟩]
        .ASSEMBLED).1.map fun p => p.url) = ["blob:new-upload"] ∧
    specUpdatedUrls
        [⟨"photo-0", "https://picsum.photos/400/400?random=1",
          (0, 0, 0), (0, 0, 0), (0, 0, 0), (0, 0, 0)⟩,
         ⟨"photo-1", "blob:user-photo",
          (0, 0, 0), (0, 0, 0), (0, 0, 0), (0, 0, 0)⟩]
        ["blob:new-upload"] =
      ["https://picsum.photos/400/400?random=1", "blob:user-photo",
       "blob:new-upload"] ∧
    (["blob:new-upload"] ≠
      ["https://picsum.photos/400/400?random=1", "blob:user-photo",
       "blob:new-upload"]) := by
  refine ⟨?_, ?_, by decide⟩
  · unfold handlePhotoUpload
    rw [if_neg (by decide), if_pos (by decide)]
    exact createPhotoLayouts_urls _ _
  · unfold specUpdatedUrls
    rw [if_neg (by decide)]
    rfl

/-- C7 (amended): for every non-empty upload the mode is forced to SCATTERED
and the photo layout is regenerated for the whole resulting collection, whose
url list is the new sources alone when the current list is non-empty with its
FIRST url containing picsum.photos (the code's default test), and the old
urls followed by the new sources otherwise; uploading 3 new urls over the 8
default placeholders leaves exactly 3 photos. -/
theorem claim7_upload (u : ℕ → ℝ) (newUrls : List String)
    (prev : List PhotoData) (m : AppState) (hne : newUrls ≠ []) :
    (handlePhotoUpload u newUrls prev m).2 = .SCATTERED ∧
    ((handlePhotoUpload u newUrls prev m).1.map fun p => p.url) =
      (if isDefaultList prev then newUrls
       else (prev.map fun p => p.url) ++ newUrls) ∧
    (∀ v : ℕ → ℝ, prev = createPhotoLayouts v defaultPhotos →
      newUrls.length = 3 → (handlePhotoUpload u newUrls prev m).1.length = 3) := by
  have hempty : ¬(newUrls.isEmpty = true) := by
    cases newUrls with
    | nil => exact absurd rfl hne
    | cons a as => simp
  unfold handlePhotoUpload
  rw [if_neg hempty]
  refine ⟨rfl, ?_, ?_⟩
  · by_cases hd : isDefaultList prev = true
    · rw [if_pos hd]
      exact createPhotoLayouts_urls u newUrls
    · rw [if_neg hd]
      exact createPhotoLayouts_urls u _
  · intro v hprev hlen
    have hd : isDefaultList prev = true := by
      have hurl := createPhotoLayouts_urls v defaultPhotos
      rw [← hprev] at hurl
      unfold defaultPhotos at hurl
      cases prev with
      | nil => exact absurd hurl (by simp)
      | cons p rest =>
        rw [List.map_cons] at hurl
        injection hurl with h1 _
        show strIncludes p.url "picsum.photos" = true
        rw [h1]
        decide
    rw [if_pos hd, createPhotoLayouts_length, hlen]

/-- Witness for the amended C7: uploading three blob urls over the default
placeholders yields exactly 3 photos and mode SCATTERED. -/
theorem claim7_upload_witness :
    (handlePhotoUpload (fun _ => 0) ["blob:a", "blob:b", "blob:c"]
      (createPhotoLayouts (fun _ => 0) defaultPhotos) .ASSEMBLED).2 =
        .SCATTERED ∧
    (handlePhotoUpload (fun _ => 0) ["blob:a", "blob:b", "blob:c"]
      (createPhotoLayouts (fun _ => 0) defaultPhotos) .ASSEMBLED).1.length = 3 :=
  ⟨(claim7_upload (fun _ => 0) ["blob:a", "blob:b", "blob:c"]
      (createPhotoLayouts (fun _ => 0) defaultPhotos) .ASSEMBLED
      (by simp)).1,
   (claim7_upload (fun _ => 0) ["blob:a", "blob:b", "blob:c"]
      (createPhotoLayouts (fun _ => 0) defaultPhotos) .ASSEMBLED
      (by simp)).2.2 (fun _ => 0) rfl rfl⟩

/-! ## Particle animation step (TreeScene updateMesh) -/

/-- three.js Vector3.lerp: this = this + (v - this) * alpha, componentwise. -/
noncomputable def lerpV3 (p v : V3) (alpha : ℝ) : V3 :=
  (p.1 + (v.1 - p.1) * alpha,
   p.2.1 + (v.2.1 - p.2.1) * alpha,
   p.2.2 + (v.2.2 - p.2.2) * alpha)

/-- Per-frame particle position step (updateMesh in TreeScene.tsx lines 87-95,
identical in both variants): p.position.lerp(target, 3 * delta * (0.5 + U))
where U is the fresh Math.random() draw of that frame. -/
noncomputable def particleStep (target : V3) (dt U : ℝ) (pos : V3) : V3 :=
  lerpV3 pos target (3 * dt * (0.5 + U))

/-- Position after n frames with a fixed target, fixed dt, and per-frame
random draws Us. -/
noncomputable def particleTraj (target : V3) (dt : ℝ) (Us : ℕ → ℝ) (p0 : V3) :
    ℕ → V3
  | 0 => p0
  | n + 1 => particleStep target dt (Us n) (particleTraj target dt Us p0 n)

/-- Euclidean distance in 3-space. -/
noncomputable def dist3 (p q : V3) : ℝ :=
  Real.sqrt ((p.1 - q.1) ^ 2 + (p.2.1 - q.2.1) ^ 2 + (p.2.2 - q.2.2) ^ 2)

theorem dist3_nonneg (p q : V3) : 0 ≤ dist3 p q := Real.sqrt_nonneg _

theorem dist3_particleStep (target : V3) (dt U : ℝ) (pos : V3) :
    dist3 (particleStep target dt U pos) target =
      |1 - 3 * dt * (0.5 + U)| * dist3 pos target := by
  unfold particleStep lerpV3 dist3
  simp only
  rw [show (pos.1 + (target.1 - pos.1) * (3 * dt * (0.5 + U)) - target.1) ^ 2 +
      (pos.2.1 + (target.2.1 - pos.2.1) * (3 * dt * (0.5 + U)) - target.2.1) ^ 2 +
      (pos.2.2 + (target.2.2 - pos.2.2) * (3 * dt * (0.5 + U)) - target.2.2) ^ 2 =
      (1 - 3 * dt * (0.5 + U)) ^ 2 *
        ((pos.1 - target.1) ^ 2 + (pos.2.1 - target.2.1) ^ 2 +
          (pos.2.2 - target.2.2) ^ 2) by ring,
    Real.sqrt_mul (sq_nonneg _), Real.sqrt_sq_eq_abs]

/-- Counterexample to C8: at dt = 1 (which is greater than 0) with draws
U = 0.5 the lerp factor is 3, so a particle at distance 1 from its target
moves to distance 2: the distance to target is not non-increasing for every
dt greater than 0. -/
theorem claim8_counterexample :
    (0 : ℝ) < 1 ∧
    (∀ n : ℕ, (fun _ : ℕ => (0.5 : ℝ)) n ∈ Set.Ico (0 : ℝ) 1) ∧
    dist3 (particleTraj (0, 0, 0) 1 (fun _ => 0.5) (1, 0, 0) 0) (0, 0, 0) <
      dist3 (particleTraj (0, 0, 0) 1 (fun _ => 0.5) (1, 0, 0) 1) (0, 0, 0) := by
  refine ⟨by norm_num, fun n => ⟨by norm_num, by norm_num⟩, ?_⟩
  have h0 : dist3 ((1 : ℝ), (0 : ℝ), (0 : ℝ)) (0, 0, 0) = 1 := by
    unfold dist3
    norm_num
  have h1 : particleTraj (0, 0, 0) 1 (fun _ => 0.5) (1, 0, 0) 1 =
      particleStep (0, 0, 0) 1 0.5 (1, 0, 0) := rfl
  rw [show particleTraj (0, 0, 0) 1 (fun _ => 0.5) (1, 0, 0) 0 =
      ((1 : ℝ), (0 : ℝ), (0 : ℝ)) from rfl, h1, dist3_particleStep, h0]
  norm_num

/-- Per-frame contraction bound: with dt in (0, 4/9) and draws in [0, 1) each
step multiplies the distance to target by at most
q = max (1 - 1.5 dt) (4.5 dt - 1), and q is in [0, 1). -/
theorem particleStep_contraction (dt U : ℝ) (hdt0 : 0 < dt) (hdt : dt < 4 / 9)
    (hU : U ∈ Set.Ico (0 : ℝ) 1) :
    |1 - 3 * dt * (0.5 + U)| ≤ max (1 - 1.5 * dt) (4.5 * dt - 1) ∧
    0 ≤ max (1 - 1.5 * dt) (4.5 * dt - 1) ∧
    max (1 - 1.5 * dt) (4.5 * dt - 1) < 1 := by
  obtain ⟨hU0, hU1⟩ := hU
  have hf0 : 1.5 * dt ≤ 3 * dt * (0.5 + U) := by nlinarith
  have hf1 : 3 * dt * (0.5 + U) < 4.5 * dt := by nlinarith
  refine ⟨?_, ?_, ?_⟩
  · rcases abs_cases (1 - 3 * dt * (0.5 + U)) with ⟨heq, _⟩ | ⟨heq, _⟩
    · rw [heq]
      exact le_max_of_le_left (by linarith)
    · rw [heq]
      exact le_max_of_le_right (by linarith)
  · exact le_max_of_le_left (by linarith)
  · exact max_lt (by linarith) (by linarith)

/-- C8 (amended): with a fixed target, per-frame draws in [0,1), and
0 < dt < 4/9 (so that the lerp factor 3 * dt * (0.5 + U) stays below 2; the
claim's arbitrary dt > 0 fails), the distance to target is non-increasing
frame over frame and drops below any positive epsilon after boundedly many
frames. -/
theorem claim8_convergence (target p0 : V3) (dt : ℝ) (Us : ℕ → ℝ)
    (hdt0 : 0 < dt) (hdt : dt < 4 / 9) (hU : ∀ n, Us n ∈ Set.Ico (0 : ℝ) 1) :
    (∀ n, dist3 (particleTraj target dt Us p0 (n + 1)) target ≤
      dist3 (particleTraj target dt Us p0 n) target) ∧
    (∀ ε : ℝ, 0 < ε → ∃ N, ∀ n, N ≤ n →
      dist3 (particleTraj target dt Us p0 n) target < ε) := by
  set q := max (1 - 1.5 * dt) (4.5 * dt - 1) with hq
  have hq0 : 0 ≤ q :=
    (particleStep_contraction dt (Us 0) hdt0 hdt (hU 0)).2.1
  have hq1 : q < 1 :=
    (particleStep_contraction dt (Us 0) hdt0 hdt (hU 0)).2.2
  have hstep : ∀ n, dist3 (particleTraj target dt Us p0 (n + 1)) target ≤
      q * dist3 (particleTraj target dt Us p0 n) target := by
    intro n
    rw [show particleTraj target dt Us p0 (n + 1) =
      particleStep target dt (Us n) (particleTraj target dt Us p0 n) from rfl,
      dist3_particleStep]
    exact mul_le_mul_of_nonneg_right
      (particleStep_contraction dt (Us n) hdt0 hdt (hU n)).1
      (dist3_nonneg _ _)
  have hmono : ∀ n, dist3 (particleTraj target dt Us p0 (n + 1)) target ≤
      dist3 (particleTraj target dt Us p0 n) target := by
    intro n
    calc dist3 (particleTraj target dt Us p0 (n + 1)) target ≤
        q * dist3 (particleTraj target dt Us p0 n) target := hstep n
      _ ≤ 1 * dist3 (particleTraj target dt Us p0 n) target :=
        mul_le_mul_of_nonneg_right (le_of_lt hq1) (dist3_nonneg _ _)
      _ = dist3 (particleTraj target dt Us p0 n) target := one_mul _
  refine ⟨hmono, fun ε hε => ?_⟩
  have hgeo : ∀ n, dist3 (particleTraj target dt Us p0 n) target ≤
      q ^ n * dist3 p0 target := by
    intro n
    induction n with
    | zero =>
      rw [pow_zero, one_mul]
      exact le_of_eq rfl
    | succ k ih =>
      calc dist3 (particleTraj target dt Us p0 (k + 1)) target ≤
          q * dist3 (particleTraj target dt Us p0 k) target := hstep k
        _ ≤ q * (q ^ k * dist3 p0 target) :=
          mul_le_mul_of_nonneg_left ih hq0
        _ = q ^ (k + 1) * dist3 p0 target := by ring
  have hd0 : 0 ≤ dist3 p0 target := dist3_nonneg _ _
  obtain ⟨N, hN⟩ :=
    exists_pow_lt_of_lt_one (x := ε / (dist3 p0 target + 1)) (by positivity) hq1
  refine ⟨N, fun n hn => ?_⟩
  have hmono' : ∀ k, dist3 (particleTraj target dt Us p0 (N + k)) target ≤
      dist3 (particleTraj target dt Us p0 N) target := by
    intro k
    induction k with
    | zero => exact le_of_eq rfl
    | succ j ih => exact le_trans (hmono (N + j)) ih
  have hnN : dist3 (particleTraj target dt Us p0 n) target ≤
      dist3 (particleTraj target dt Us p0 N) target := by
    obtain ⟨k, rfl⟩ := Nat.exists_eq_add_of_le hn
    exact hmono' k
  calc dist3 (particleTraj target dt Us p0 n) target ≤
      dist3 (particleTraj target dt Us p0 N) target := hnN
    _ ≤ q ^ N * dist3 p0 target := hgeo N
    _ ≤ q ^ N * (dist3 p0 target + 1) :=
      mul_le_mul_of_nonneg_left (by linarith) (pow_nonneg hq0 N)
    _ < ε / (dist3 p0 target + 1) * (dist3 p0 target + 1) :=
      mul_lt_mul_of_pos_right hN (by linarith)
    _ = ε := div_mul_cancel₀ ε (by linarith)

/-- Witness for the amended C8 at dt = 1/3, draws all 0, particle at the
origin target. -/
theorem claim8_convergence_witness :
    dist3 (particleTraj (0, 0, 0) (1 / 3) (fun _ => 0) (1, 0, 0) 1) (0, 0, 0) ≤
      dist3 (particleTraj (0, 0, 0) (1 / 3) (fun _ => 0) (1, 0, 0) 0) (0, 0, 0) :=
  (claim8_convergence (0, 0, 0) (1, 0, 0) (1 / 3) (fun _ => 0) (by norm_num)
    (by norm_num) (fun n => ⟨by norm_num, by norm_num⟩)).1 0

/-! ## Particle shape draw (math.ts createParticles) -/

/-- Shape categories of a particle (types.ts). -/
inductive ShapeKind where
  | sphere
  | cube
  | candy
deriving DecidableEq, Repr

/-- Shape draw from createParticles (math.ts line 49), as a function of the
two Math.random() results it consumes in order: the conditional
u1 gt 0.7 picks cube, otherwise u2 gt 0.9 picks candy, else sphere. -/
noncomputable def particleShape (u1 u2 : ℝ) : ShapeKind :=
  if u1 > 0.7 then .cube
  else if u2 > 0.9 then .candy
  else .sphere

/-- Draw pairs in the unit square producing a given shape. -/
def shapeRegion (k : ShapeKind) : Set (ℝ × ℝ) :=
  {p | p.1 ∈ Set.Ico (0 : ℝ) 1 ∧ p.2 ∈ Set.Ico (0 : ℝ) 1 ∧
    particleShape p.1 p.2 = k}

theorem particleShape_eq_cube (x y : ℝ) :
    particleShape x y = .cube ↔ 0.7 < x := by
  unfold particleShape
  refine ⟨fun h => ?_, fun h => by rw [if_pos h]⟩
  by_contra hc
  rw [if_neg hc] at h
  by_cases h9 : y > 0.9
  · rw [if_pos h9] at h
    exact ShapeKind.noConfusion h
  · rw [if_neg h9] at h
    exact ShapeKind.noConfusion h

theorem particleShape_eq_candy (x y : ℝ) :
    particleShape x y = .candy ↔ x ≤ 0.7 ∧ 0.9 < y := by
  unfold particleShape
  constructor
  · intro h
    by_cases h7 : x > 0.7
    · rw [if_pos h7] at h
      exact ShapeKind.noConfusion h
    · rw [if_neg h7] at h
      by_cases h9 : y > 0.9
      · exact ⟨not_lt.mp h7, h9⟩
      · rw [if_neg h9] at h
        exact ShapeKind.noConfusion h
  · rintro ⟨h7, h9⟩
    rw [if_neg (not_lt.mpr h7), if_pos h9]

theorem particleShape_eq_sphere (x y : ℝ) :
    particleShape x y = .sphere ↔ x ≤ 0.7 ∧ y ≤ 0.9 := by
  unfold particleShape
  constructor
  · intro h
    by_cases h7 : x > 0.7
    · rw [if_pos h7] at h
      exact ShapeKind.noConfusion h
    · by_cases h9 : y > 0.9
      · rw [if_neg h7, if_pos h9] at h
        exact ShapeKind.noConfusion h
      · exact ⟨not_lt.mp h7, not_lt.mp h9⟩
  · rintro ⟨h7, h9⟩
    rw [if_neg (not_lt.mpr h7), if_neg (not_lt.mpr h9)]

theorem shapeRegion_cube_eq :
    shapeRegion .cube = Set.Ioo (0.7 : ℝ) 1 ×ˢ Set.Ico (0 : ℝ) 1 := by
  ext p
  simp only [shapeRegion, Set.mem_setOf_eq, Set.mem_Ico, Set.mem_prod,
    Set.mem_Ioo, particleShape_eq_cube]
  constructor
  · rintro ⟨⟨_, hx1⟩, hy, hx7⟩
    exact ⟨⟨hx7, hx1⟩, hy⟩
  · rintro ⟨⟨hx7, hx1⟩, hy⟩
    exact ⟨⟨by linarith, hx1⟩, hy, hx7⟩

theorem shapeRegion_candy_eq :
    shapeRegion .candy = Set.Icc (0 : ℝ) 0.7 ×ˢ Set.Ioo (0.9 : ℝ) 1 := by
  ext p
  simp only [shapeRegion, Set.mem_setOf_eq, Set.mem_Ico, Set.mem_prod,
    Set.mem_Icc, Set.mem_Ioo, particleShape_eq_candy]
  constructor
  · rintro ⟨⟨hx0, _⟩, ⟨_, hy1⟩, hx7, hy9⟩
    exact ⟨⟨hx0, hx7⟩, hy9, hy1⟩
  · rintro ⟨⟨hx0, hx7⟩, hy9, hy1⟩
    exact ⟨⟨hx0, by linarith⟩, ⟨by linarith, hy1⟩, hx7, hy9⟩

theorem shapeRegion_sphere_eq :
    shapeRegion .sphere = Set.Icc (0 : ℝ) 0.7 ×ˢ Set.Icc (0 : ℝ) 0.9 := by
  ext p
  simp only [shapeRegion, Set.mem_setOf_eq, Set.mem_Ico, Set.mem_prod,
    Set.mem_Icc, particleShape_eq_sphere]
  constructor
  · rintro ⟨⟨hx0, _⟩, ⟨hy0, _⟩, hx7, hy9⟩
    exact ⟨⟨hx0, hx7⟩, hy0, hy9⟩
  · rintro ⟨⟨hx0, hx7⟩, hy0, hy9⟩
    exact ⟨⟨hx0, by linarith⟩, ⟨hy0, by linarith⟩, hx7, hy9⟩

theorem volume_shapeRegion_sphere :
    volume (shapeRegion .sphere) = ENNReal.ofReal (63 / 100) := by
  rw [shapeRegion_sphere_eq, MeasureTheory.Measure.volume_eq_prod,
    MeasureTheory.Measure.prod_prod, Real.volume_Icc, Real.volume_Icc,
    ← ENNReal.ofReal_mul (by norm_num)]
  norm_num

theorem volume_shapeRegion_cube :
    volume (shapeRegion .cube) = ENNReal.ofReal (3 / 10) := by
  rw [shapeRegion_cube_eq, MeasureTheory.Measure.volume_eq_prod,
    MeasureTheory.Measure.prod_prod, Real.volume_Ioo, Real.volume_Ico,
    ← ENNReal.ofReal_mul (by norm_num)]
  norm_num

theorem volume_shapeRegion_candy :
    volume (shapeRegion .candy) = ENNReal.ofReal (7 / 100) := by
  rw [shapeRegion_candy_eq, MeasureTheory.Measure.volume_eq_prod,
    MeasureTheory.Measure.prod_prod, Real.volume_Icc, Real.volume_Ioo,
    ← ENNReal.ofReal_mul (by norm_num)]
  norm_num

/-- Counterexample to C9: the measure of draw pairs producing sphere is
63/100, not (approximately) 70/100; the claimed thresholds 0.70/0.21/0.09 do
not match the code's 0.63/0.30/0.07. -/
theorem claim9_counterexample :
    volume (shapeRegion .sphere) = ENNReal.ofReal (63 / 100) ∧
    ENNReal.ofReal (63 / 100) ≠ ENNReal.ofReal (70 / 100) := by
  refine ⟨volume_shapeRegion_sphere, ?_⟩
  rw [Ne, ENNReal.ofReal_eq_ofReal_iff (by norm_num) (by norm_num)]
  norm_num

/-- C9 (amended): viewing the shape category as a function of the two uniform
draws in [0,1) that compose it, the exact measures are 63/100 for sphere,
3/10 for cube and 7/100 for candy (not 0.70 / 0.21 / 0.09 as claimed). -/
theorem claim9_shape_measures :
    volume (shapeRegion .sphere) = ENNReal.ofReal (63 / 100) ∧
    volume (shapeRegion .cube) = ENNReal.ofReal (3 / 10) ∧
    volume (shapeRegion .candy) = ENNReal.ofReal (7 / 100) :=
  ⟨volume_shapeRegion_sphere, volume_shapeRegion_cube, volume_shapeRegion_candy⟩

end ChristmasTree
